import Mathlib

/-!
Verification development for the aws-price repository: a React frontend
(src/frontend/src/App.tsx, with an earlier variant in src/unnamed/part_001)
posting free-text pricing queries to a backend pipeline (Term Normalizer,
Parameter Extractor, Pricing Resolver, Response Composer).  The frontend is
embedded from the TypeScript source; the backend pipeline is not present in
the repository snapshot and is modelled from the specification where a claim
depends on it.
-/

namespace AwsPrice

/-- The PricingData interface of src/frontend/src/App.tsx (lines 21-27):
one shaped pricing record as delivered to the caller. -/
structure PricingData where
  instanceType : String
  operatingSystem : String
  region : String
  onDemandPrice : String
  unit : String
deriving DecidableEq, Repr

/-- The optional-keys parameters object inside the QueryResult interface of
src/frontend/src/App.tsx (lines 31-36); the spec calls it ParameterSet. -/
structure ParameterSet where
  service : Option String
  region : Option String
  instance_type : Option String
  os : Option String
deriving DecidableEq, Repr

/-- The QueryResult interface of src/frontend/src/App.tsx (lines 29-39). -/
structure QueryResult where
  query : String
  parameters : ParameterSet
  pricing_data : List PricingData
  response : String
deriving DecidableEq, Repr

/-- The request body posted by handleSubmit: axios.post(url, { query }). -/
structure RequestBody where
  query : String
deriving DecidableEq, Repr

/-- The four useState hooks of the App component (App.tsx lines 42-45). -/
structure AppState where
  query : String
  loading : Bool
  error : Option String
  result : Option QueryResult
deriving DecidableEq, Repr

/-- Outcome of the awaited axios.post call in handleSubmit: a parsed
QueryResult, an axios error carrying a response (whose body may hold an
error field), or a network-level error with no response. -/
inductive RequestOutcome where
  | success (data : QueryResult)
  | httpError (errField : Option String)
  | networkError
deriving DecidableEq, Repr

/-- A whitespace character as JavaScript's String.prototype.trim removes
(restricted to the ASCII whitespace actually occurring in queries). -/
def isSpaceChar (c : Char) : Bool :=
  c == ' ' || c == '\t' || c == '\n' || c == '\r'

/-- JavaScript's trim over the underlying character list: leading and
trailing whitespace removed. -/
def trimChars (l : List Char) : List Char :=
  ((l.dropWhile isSpaceChar).reverse.dropWhile isSpaceChar).reverse

/-- The query.trim() call of App.tsx line 54, embedded structurally. -/
def strTrim (s : String) : String := ⟨trimChars s.data⟩

/-- App.tsx line 19: process.env.REACT_APP_API_BASE_URL or the literal
default http-colon-slash-slash-localhost:3001. -/
def API_BASE_URL (env : Option String) : String :=
  env.getD "http://localhost:3001"

/-- App.tsx line 63: the URL the query is posted to. -/
def queryEndpointUrl (env : Option String) : String :=
  API_BASE_URL env ++ "/api/query"

/-- The backend URL stated by the repository README (src/unnamed/part_000
line 54): the Flask server runs at localhost port 5000. -/
def readmeBackendUrl : String := "http://localhost:5000"

/-- App.tsx line 55: validation message for an empty query. -/
def validationMsg : String := "請輸入查詢內容"

/-- App.tsx line 68: warning set when the response's pricing_data is empty. -/
def emptyDataMsg : String :=
  "沒有找到符合條件的價格數據。AWS可能沒有提供該地區或配置的價格信息，或者您的查詢參數需要調整。"

/-- App.tsx line 72: fallback text when the error body has no error field. -/
def unknownErrMsg : String := "未知錯誤"

/-- App.tsx line 72: message for an axios error that carries a response. -/
def httpErrMsg (errField : Option String) : String :=
  "錯誤: " ++ errField.getD unknownErrMsg

/-- App.tsx line 74: message when no response was received at all. -/
def networkErrMsg : String := "無法連接到服務器，請檢查後端服務是否運行"

/-- The handleSubmit handler of App.tsx (lines 51-80) as a state transition:
given the pre-state and the outcome the awaited post would produce, it
returns the post-state together with the request body actually posted
(none when validation short-circuits before any HTTP request). -/
def handleSubmit (s : AppState) (o : RequestOutcome) :
    AppState × Option RequestBody :=
  if strTrim s.query = "" then
    ({ s with error := some validationMsg }, none)
  else
    match o with
    | RequestOutcome.success data =>
      let s1 : AppState :=
        { s with loading := false, error := none, result := some data }
      if data.pricing_data.length = 0 then
        ({ s1 with error := some emptyDataMsg }, some { query := s.query })
      else
        (s1, some { query := s.query })
    | RequestOutcome.httpError e =>
      ({ s with loading := false, error := some (httpErrMsg e), result := none },
        some { query := s.query })
    | RequestOutcome.networkError =>
      ({ s with loading := false, error := some networkErrMsg, result := none },
        some { query := s.query })

/-- One conditionally rendered element of the App component's JSX. -/
inductive RenderItem where
  | errorAlert (msg : String)
  | resultCard (r : QueryResult)
  | pricingDataBlock (d : List PricingData)
  | noMatchAlert (msg : String)
deriving DecidableEq, Repr

/-- App.tsx line 172: the info alert shown inside the result card when
pricing_data is empty. -/
def renderNoMatchMsg : String :=
  "沒有找到符合條件的價格數據。這可能是因為AWS沒有提供該配置的價格信息，或者參數組合不正確。"

/-- The conditional rendering of App.tsx (lines 131-177): the error alert
when error is set, and the result card (with its pricing-data block or
no-match alert) when a result is present. -/
def render (s : AppState) : List RenderItem :=
  (match s.error with
   | some m => [RenderItem.errorAlert m]
   | none => [])
  ++
  (match s.result with
   | some r =>
     [RenderItem.resultCard r]
     ++ (if 0 < r.pricing_data.length then
           [RenderItem.pricingDataBlock r.pricing_data] else [])
     ++ (if r.pricing_data.length = 0 then
           [RenderItem.noMatchAlert renderNoMatchMsg] else [])
   | none => [])

/-- Modelled from the spec: the backend pipeline (Python/Flask per the
README) is not in the repository snapshot; this is the Term Normalizer's
fixed region alias table (spec 4.1) mapping city/region names in several
languages, and already-canonical codes, to catalog region codes. -/
def regionAliases : List (String × String) :=
  [ ("tokyo", "ap-northeast-1"), ("東京", "ap-northeast-1"),
    ("singapore", "ap-southeast-1"), ("新加坡", "ap-southeast-1"),
    ("virginia", "us-east-1"),
    ("us-east-1", "us-east-1"), ("ap-northeast-1", "ap-northeast-1"),
    ("ap-southeast-1", "ap-southeast-1") ]

/-- Modelled from the spec: the Term Normalizer's OS alias table (spec 4.1),
casual names mapped to catalog OS identifiers. -/
def osAliases : List (String × String) :=
  [ ("linux", "Linux"), ("windows", "Windows"),
    ("rhel", "RHEL"), ("suse", "SUSE") ]

/-- Lower-casing over the underlying character list, embedded structurally
like Python's str.lower restricted to ASCII letters. -/
def strToLower (s : String) : String := ⟨s.data.map Char.toLower⟩

/-- Modelled from the spec: normalization of a raw token before alias-table
lookup (spec 4.1, "normalize whitespace/case, then exact-match"). -/
def canonToken (raw : String) : String := strToLower (strTrim raw)

/-- Modelled from the spec: exact-match lookup against an alias table after
whitespace/case normalization; no fuzzy matching (spec 4.1). -/
def lookupAlias (table : List (String × String)) (raw : String) :
    Option String :=
  (table.find? fun kv => kv.1 == canonToken raw).map Prod.snd

/-- Modelled from the spec: the catalog's instance-type token syntax
(spec 4.2: alphanumeric family + size, e.g. t2.micro), pattern-validated
rather than alias-mapped. -/
def splitOnChar (sep : Char) : List Char → List (List Char)
  | [] => [[]]
  | c :: rest =>
    match splitOnChar sep rest, c == sep with
    | r, true => [] :: r
    | [], false => [[c]]
    | g :: gs, false => (c :: g) :: gs

def isInstanceTypeToken (s : String) : Bool :=
  match splitOnChar '.' s.data with
  | [fam, size] =>
    !fam.isEmpty && !size.isEmpty &&
      fam.all Char.isAlphanum && size.all Char.isAlphanum
  | _ => false

/-- Modelled from the spec: the single supported service the Parameter
Extractor defaults to (spec 4.2; EC2 per the README). -/
def defaultService : String := "AmazonEC2"

/-- The four recognized parameter keys (spec 3). -/
inductive NormKey where
  | service
  | region
  | instanceType
  | os
deriving DecidableEq, Repr

/-- Modelled from the spec: the Term Normalizer contract (spec 4.1),
normalize of a key and raw token giving a canonical identifier, or none
for NotFound; pure lookup over static vocabulary. -/
def normalize (k : NormKey) (raw : String) : Option String :=
  match k with
  | NormKey.region => lookupAlias regionAliases raw
  | NormKey.os => lookupAlias osAliases raw
  | NormKey.instanceType =>
    if isInstanceTypeToken raw then some raw else none
  | NormKey.service =>
    if canonToken raw == "ec2" || canonToken raw == "amazonec2" then
      some defaultService
    else none

/-- The Term Normalizer's known vocabulary of canonical region codes. -/
def regionVocab : List String := regionAliases.map Prod.snd

/-- The Term Normalizer's known vocabulary of canonical OS identifiers. -/
def osVocab : List String := osAliases.map Prod.snd

/-- Modelled from the spec: the completion capability's raw structured
output before validation (spec 4.2, 9): four optional untyped string
fields, never trusted directly. -/
structure RawParameters where
  service : Option String
  region : Option String
  instance_type : Option String
  os : Option String
deriving DecidableEq, Repr

/-- Modelled from the spec: the Parameter Extractor's validation step
(spec 4.2): region/os values must round-trip through the Term Normalizer
and are dropped otherwise; instance_type is pattern-validated; service
defaults to the single supported service when absent or unrecognized. -/
def validateParameters (raw : RawParameters) : ParameterSet :=
  { service :=
      some ((raw.service.bind fun t => normalize NormKey.service t).getD
        defaultService)
    region := raw.region.bind fun t => normalize NormKey.region t
    instance_type :=
      raw.instance_type.bind fun t => normalize NormKey.instanceType t
    os := raw.os.bind fun t => normalize NormKey.os t }

/-- Modelled from the spec: one raw price-list entry of the pricing catalog
service (spec 6); the on-demand price term may be missing (spec 4.3). -/
structure CatalogEntry where
  serviceCode : String
  instanceType : String
  operatingSystem : String
  region : String
  onDemandPrice : Option String
  unit : String
deriving DecidableEq, Repr

/-- The keys a catalog filter may constrain (spec 6). -/
inductive FilterKey where
  | service
  | region
  | instanceType
  | os
deriving DecidableEq, Repr

/-- One filter of the filter set sent to the catalog's filtered search. -/
structure CatalogFilter where
  key : FilterKey
  value : String
deriving DecidableEq, Repr

/-- Modelled from the spec: filter construction of the Pricing Resolver
(spec 4.3): present ParameterSet keys only, absent keys impose no filter,
and only service is defaulted. -/
def buildFilters (p : ParameterSet) : List CatalogFilter :=
  [⟨FilterKey.service, p.service.getD defaultService⟩]
  ++ (match p.region with
      | some v => [⟨FilterKey.region, v⟩]
      | none => [])
  ++ (match p.instance_type with
      | some v => [⟨FilterKey.instanceType, v⟩]
      | none => [])
  ++ (match p.os with
      | some v => [⟨FilterKey.os, v⟩]
      | none => [])

/-- The catalog entry field a filter key constrains. -/
def entryField (e : CatalogEntry) : FilterKey → String
  | FilterKey.service => e.serviceCode
  | FilterKey.region => e.region
  | FilterKey.instanceType => e.instanceType
  | FilterKey.os => e.operatingSystem

/-- Whether a catalog entry satisfies every filter of a filter set. -/
def entryMatches (filters : List CatalogFilter) (e : CatalogEntry) : Bool :=
  filters.all fun f => entryField e f.key == f.value

/-- Modelled from the spec: pagination of a result list by the catalog
service (spec 6); each page holds at most n + 1 entries and the page
sequence concatenates back to the original list in order. -/
def paginate (n : Nat) : List α → List (List α)
  | [] => []
  | a :: l => (a :: l.take n) :: paginate n (l.drop n)
termination_by l => l.length
decreasing_by
  simp only [List.length_drop, List.length_cons]
  omega

/-- Modelled from the spec: the pricing catalog's filtered search (spec 6):
entries matching the filter set, in the catalog's natural order, delivered
as a sequence of pages with continuation. -/
def catalogSearch (filters : List CatalogFilter)
    (catalog : List CatalogEntry) (pageSize : Nat) :
    List (List CatalogEntry) :=
  paginate pageSize (catalog.filter (entryMatches filters))

/-- Modelled from the spec: shaping of one catalog entry into a pricing
record (spec 4.3); entries missing the on-demand price term are silently
excluded. -/
def shapeEntry (e : CatalogEntry) : Option PricingData :=
  match e.onDemandPrice with
  | some price =>
    some ⟨e.instanceType, e.operatingSystem, e.region, price, e.unit⟩
  | none => none

/-- Modelled from the spec: the resolver's page loop (spec 4.3): keep
requesting successive pages until the catalog signals completion,
accumulating every page's entries in order. -/
def collectPages : List (List CatalogEntry) → List CatalogEntry
  | [] => []
  | page :: rest => page ++ collectPages rest

/-- Modelled from the spec: the Pricing Resolver contract (spec 4.3):
build the filter set from the ParameterSet, fetch every page of the
catalog's filtered search, and shape each accumulated entry into a
PricingData record. -/
def resolve (p : ParameterSet) (catalog : List CatalogEntry)
    (pageSize : Nat) : List PricingData :=
  (collectPages (catalogSearch (buildFilters p) catalog pageSize)).filterMap
    shapeEntry

/-- Modelled from the spec: the Response Composer's clarification message
(spec 4.4), asked when no parameter was recognized at all; the backend
that phrases it is not in the snapshot. -/
def clarifyMsg : String := "請問您想查詢哪個區域、哪種執行個體類型或哪個作業系統的價格？"

/-- Modelled from the spec: the no-match answer of the Response Composer
(spec 4.4): states explicitly that no matching price was found for the
resolved parameters. -/
def noPriceFoundMsg : String := "未找到符合所識別參數的價格資料"

/-- Modelled from the spec: opening of the deterministic price summary. -/
def priceFoundIntro : String := "查詢結果如下："

/-- Whether a ParameterSet has at least one recognized field beyond the
always-defaulted service (spec 4.4 distinguishes this case). -/
def hasRecognizedField (p : ParameterSet) : Bool :=
  p.region.isSome || p.instance_type.isSome || p.os.isSome

/-- Modelled from the spec: the Response Composer's deterministic fallback
template (spec 4.4): clarification when nothing was recognized, an explicit
no-match statement when records are empty, else a summary of the records. -/
def composeFallback (p : ParameterSet) (records : List PricingData) :
    String :=
  if hasRecognizedField p = false then clarifyMsg
  else if records.isEmpty then noPriceFoundMsg
  else
    records.foldl
      (fun acc r => acc ++ " " ++ r.instanceType ++ " " ++ r.onDemandPrice)
      priceFoundIntro

/-- A sample application state with a non-blank query, used to instantiate
the frontend theorems. -/
def sampleState : AppState :=
  { query := "東京 linux t2.micro 價格為多少", loading := false,
    error := none, result := none }

/-- A sample ParameterSet as the scenario of spec 8 resolves it. -/
def sampleParams : ParameterSet :=
  { service := some "AmazonEC2", region := some "ap-northeast-1",
    instance_type := some "t2.micro", os := some "Linux" }

/-- The ParameterSet with every key absent. -/
def emptyParams : ParameterSet :=
  { service := none, region := none, instance_type := none, os := none }

/-- A sample raw extractor output before validation. -/
def sampleRaw : RawParameters :=
  { service := none, region := some " Tokyo ",
    instance_type := some "t2.micro", os := some "linux" }

/-- A sample three-entry catalog used to instantiate the resolver
theorems; the third entry lacks an on-demand price term. -/
def sampleCatalog : List CatalogEntry :=
  [ { serviceCode := "AmazonEC2", instanceType := "t2.micro",
      operatingSystem := "Linux", region := "ap-northeast-1",
      onDemandPrice := some "0.0152", unit := "Hrs" },
    { serviceCode := "AmazonEC2", instanceType := "t2.micro",
      operatingSystem := "Linux", region := "ap-northeast-1",
      onDemandPrice := some "0.0200", unit := "Hrs" },
    { serviceCode := "AmazonEC2", instanceType := "t2.micro",
      operatingSystem := "Linux", region := "ap-northeast-1",
      onDemandPrice := none, unit := "Hrs" } ]

/-- A sample QueryResult whose pricing_data is empty. -/
def sampleEmptyResult : QueryResult :=
  { query := "東京 linux t2.micro 價格為多少",
    parameters := sampleParams, pricing_data := [],
    response := noPriceFoundMsg }

/-- The page sequence produced by paginate concatenates back to the
original list: no page is skipped, no entry duplicated, order kept. -/
theorem paginate_flatten (n : Nat) (l : List α) :
    (paginate n l).flatten = l := by
  induction l using paginate.induct n with
  | case1 => simp [paginate]
  | case2 a l ih => simp [paginate, List.flatten, ih]

/-- The resolver's page loop accumulates exactly the concatenation of the
pages, in order. -/
theorem collectPages_eq_flatten (ps : List (List CatalogEntry)) :
    collectPages ps = ps.flatten := by
  induction ps with
  | nil => rfl
  | cons p rest ih => simp [collectPages, ih]

/-- A successful alias lookup lands in the table's canonical-value set. -/
theorem lookupAlias_mem (table : List (String × String)) (raw v : String)
    (h : lookupAlias table raw = some v) : v ∈ table.map Prod.snd := by
  unfold lookupAlias at h
  rw [Option.map_eq_some'] at h
  obtain ⟨kv, hfind, hv⟩ := h
  exact hv ▸ List.mem_map_of_mem Prod.snd (List.mem_of_find?_eq_some hfind)

/-- A string obtained by appending to the error-message marker never
equals a string whose first character differs from the marker's. -/
theorem marker_append_ne (t x : String)
    (hx : x.data.head? ≠ some '錯') : ("錯誤: " ++ t) ≠ x := by
  intro h
  apply hx
  rw [← h, String.data_append]
  rfl

/-- C1: for every submitted query the externally visible contract is one
inbound request type — a body with the single field query holding the text,
posted to the query endpoint — and the response is a QueryResult record
with exactly the fields query, parameters, pricing_data, response, whose
parameters part holds only the optional keys service, region,
instance_type, os. -/
theorem c1_external_contract (s : AppState) (o : RequestOutcome)
    (h : ¬ strTrim s.query = "") :
    (handleSubmit s o).2 = some { query := s.query }
    ∧ (∀ d : QueryResult,
        ((handleSubmit s (RequestOutcome.success d)).1).result = some d)
    ∧ (∀ qr : QueryResult,
        qr = QueryResult.mk qr.query qr.parameters qr.pricing_data
          qr.response)
    ∧ (∀ ps : ParameterSet,
        ps = ParameterSet.mk ps.service ps.region ps.instance_type ps.os) := by
  refine ⟨?_, ?_, fun _ => rfl, fun _ => rfl⟩
  · cases o with
    | success d =>
      by_cases hd : d.pricing_data.length = 0 <;>
        simp [handleSubmit, h, hd]
    | httpError e => simp [handleSubmit, h]
    | networkError => simp [handleSubmit, h]
  · intro d
    by_cases hd : d.pricing_data.length = 0 <;>
      simp [handleSubmit, h, hd]

/-- Witness for C1 at a concrete state and outcome. -/
theorem c1_external_contract_witness :
    ¬ strTrim sampleState.query = ""
    ∧ (handleSubmit sampleState RequestOutcome.networkError).2
        = some { query := sampleState.query } :=
  ⟨by decide,
    (c1_external_contract sampleState RequestOutcome.networkError
      (by decide)).1⟩

/-- C8: for every query whose text is empty or whitespace-only, submitting
performs no HTTP request at all: the handler sets the fixed validation
message and returns before entering the loading state, leaving loading and
any previously displayed result unchanged. -/
theorem c8_blank_query_no_request (s : AppState) (o : RequestOutcome)
    (h : strTrim s.query = "") :
    handleSubmit s o = ({ s with error := some validationMsg }, none)
    ∧ (handleSubmit s o).2 = none
    ∧ (handleSubmit s o).1.loading = s.loading
    ∧ (handleSubmit s o).1.result = s.result
    ∧ (handleSubmit s o).1.error = some validationMsg := by
  simp [handleSubmit, h]

/-- Witness for C8 at a whitespace-only query with a previous result. -/
theorem c8_blank_query_no_request_witness :
    strTrim "  " = ""
    ∧ (handleSubmit
        { query := "  ", loading := false, error := none,
          result := some sampleEmptyResult }
        RequestOutcome.networkError).1.result = some sampleEmptyResult :=
  ⟨by decide,
    (c8_blank_query_no_request
      { query := "  ", loading := false, error := none,
        result := some sampleEmptyResult }
      RequestOutcome.networkError (by decide)).2.2.2.1⟩

/-- C9: after every completed submission the loading flag is false, and on
any request failure the result is reset to none while the failure message
is set, so a stale QueryResult is never displayed alongside a new
request-failure error. -/
theorem c9_completed_submission_consistency (s : AppState)
    (o : RequestOutcome) (h : ¬ strTrim s.query = "") :
    (handleSubmit s o).1.loading = false
    ∧ (∀ m, (handleSubmit s (RequestOutcome.httpError m)).1.result = none
        ∧ (handleSubmit s (RequestOutcome.httpError m)).1.error
            = some (httpErrMsg m))
    ∧ ((handleSubmit s RequestOutcome.networkError).1.result = none
        ∧ (handleSubmit s RequestOutcome.networkError).1.error
            = some networkErrMsg) := by
  refine ⟨?_, ?_, ?_⟩
  · cases o with
    | success d =>
      by_cases hd : d.pricing_data.length = 0 <;>
        simp [handleSubmit, h, hd]
    | httpError e => simp [handleSubmit, h]
    | networkError => simp [handleSubmit, h]
  · intro m
    constructor <;> simp [handleSubmit, h]
  · constructor <;> simp [handleSubmit, h]

/-- Witness for C9 at a concrete state whose previous result was set. -/
theorem c9_completed_submission_consistency_witness :
    (handleSubmit
      { query := "tokyo t2.micro", loading := true, error := none,
        result := some sampleEmptyResult }
      (RequestOutcome.httpError none)).1.result = none :=
  ((c9_completed_submission_consistency
    { query := "tokyo t2.micro", loading := true, error := none,
      result := some sampleEmptyResult }
    (RequestOutcome.httpError none) (by decide)).2.1 none).1

/-- C10: with the environment variable unset, every query is posted to
localhost port 3001 under /api/query, while the README documents the
backend at localhost port 5000, so the default configuration targets a
port the documented backend does not listen on. -/
theorem c10_default_port_mismatch :
    queryEndpointUrl none = "http://localhost:3001/api/query"
    ∧ readmeBackendUrl = "http://localhost:5000"
    ∧ API_BASE_URL none ≠ readmeBackendUrl := by
  refine ⟨by decide, rfl, by decide⟩

/-- C2: a response whose pricing_data is empty is a valid no-match result,
not a failure: the QueryResult is still stored and its card rendered,
while on a catalog-unavailable failure no QueryResult is delivered at all —
the previous result is discarded and an error alert is surfaced instead. -/
theorem c2_nomatch_delivered_failure_not (s : AppState) (d : QueryResult)
    (m : Option String) (h : ¬ strTrim s.query = "")
    (hd : d.pricing_data = []) :
    ((handleSubmit s (RequestOutcome.success d)).1.result = some d
      ∧ RenderItem.resultCard d
          ∈ render (handleSubmit s (RequestOutcome.success d)).1)
    ∧ ((handleSubmit s (RequestOutcome.httpError m)).1.result = none
      ∧ (handleSubmit s RequestOutcome.networkError).1.result = none
      ∧ (∀ r, ¬ RenderItem.resultCard r
          ∈ render (handleSubmit s (RequestOutcome.httpError m)).1)
      ∧ RenderItem.errorAlert (httpErrMsg m)
          ∈ render (handleSubmit s (RequestOutcome.httpError m)).1) := by
  refine ⟨⟨?_, ?_⟩, ?_, ?_, ?_, ?_⟩
  · simp [handleSubmit, h, hd]
  · simp [handleSubmit, h, hd, render]
  · simp [handleSubmit, h]
  · simp [handleSubmit, h]
  · intro r
    simp [handleSubmit, h, render]
  · simp [handleSubmit, h, render]

/-- Witness for C2 at a concrete state and empty-data result. -/
theorem c2_nomatch_delivered_failure_not_witness :
    (handleSubmit sampleState
      (RequestOutcome.success sampleEmptyResult)).1.result
      = some sampleEmptyResult :=
  (c2_nomatch_delivered_failure_not sampleState sampleEmptyResult none
    (by decide) (by decide)).1.1

/-- C3: the user-visible message of a failed query (request error or
unreachable server) differs from the empty-result messages and from the
clarification message shown when no parameter was recognized; the three
outcomes are never collapsed into one message, and a ParameterSet with no
recognized field always composes the clarification message. -/
theorem c3_three_outcomes_distinct :
    (∀ m : Option String, httpErrMsg m ≠ emptyDataMsg)
    ∧ (∀ m : Option String, httpErrMsg m ≠ renderNoMatchMsg)
    ∧ (∀ m : Option String, httpErrMsg m ≠ clarifyMsg)
    ∧ networkErrMsg ≠ emptyDataMsg
    ∧ networkErrMsg ≠ renderNoMatchMsg
    ∧ networkErrMsg ≠ clarifyMsg
    ∧ emptyDataMsg ≠ clarifyMsg
    ∧ renderNoMatchMsg ≠ clarifyMsg
    ∧ noPriceFoundMsg ≠ clarifyMsg
    ∧ (∀ p records, hasRecognizedField p = false →
        composeFallback p records = clarifyMsg) := by
  refine ⟨fun m => marker_append_ne _ _ (by decide),
    fun m => marker_append_ne _ _ (by decide),
    fun m => marker_append_ne _ _ (by decide),
    by decide, by decide, by decide, by decide, by decide, by decide,
    fun p records hp => ?_⟩
  simp [composeFallback, hp]

/-- Witness for C3 at concrete message arguments and a ParameterSet with
no recognized field. -/
theorem c3_three_outcomes_distinct_witness :
    httpErrMsg none ≠ emptyDataMsg
    ∧ composeFallback
        { service := some "AmazonEC2", region := none,
          instance_type := none, os := none } [] = clarifyMsg :=
  ⟨c3_three_outcomes_distinct.1 none,
    c3_three_outcomes_distinct.2.2.2.2.2.2.2.2.2
      { service := some "AmazonEC2", region := none,
        instance_type := none, os := none } [] (by decide)⟩

/-- C4: for every ParameterSet and every paginated catalog, the resolver's
accumulated pages are exactly the matching entries in the catalog's natural
order — no page skipped, no duplicates introduced — and the resolver's
output is the shaping of that full accumulation, with no early
truncation. -/
theorem c4_pagination_completeness (p : ParameterSet)
    (catalog : List CatalogEntry) (n : Nat) (h : catalog.Nodup) :
    (catalogSearch (buildFilters p) catalog n).flatten
      = catalog.filter (entryMatches (buildFilters p))
    ∧ ((catalogSearch (buildFilters p) catalog n).flatten).Nodup
    ∧ resolve p catalog n
      = (catalog.filter (entryMatches (buildFilters p))).filterMap
          shapeEntry := by
  have h1 : (catalogSearch (buildFilters p) catalog n).flatten
      = catalog.filter (entryMatches (buildFilters p)) :=
    paginate_flatten n _
  refine ⟨h1, h1 ▸ h.filter _, ?_⟩
  rw [resolve, collectPages_eq_flatten, h1]

/-- Witness for C4 at the sample ParameterSet and sample catalog split
into single-entry pages. -/
theorem c4_pagination_completeness_witness :
    (catalogSearch (buildFilters sampleParams) sampleCatalog 0).flatten
      = sampleCatalog.filter (entryMatches (buildFilters sampleParams)) :=
  (c4_pagination_completeness sampleParams sampleCatalog 0 (by decide)).1

/-- C5: region and OS identifiers in a validated ParameterSet are the
canonical catalog identifiers the normalizer returns for the recognized
alias, never the raw alias text dropped-through; every identifier in the
ParameterSet belongs to the Term Normalizer's vocabulary for its key, so
no unnormalized token is forwarded to the catalog. -/
theorem c5_normalized_vocabulary (raw : RawParameters) :
    (∀ r, (validateParameters raw).region = some r → r ∈ regionVocab)
    ∧ (∀ o, (validateParameters raw).os = some o → o ∈ osVocab)
    ∧ (∀ t, (validateParameters raw).instance_type = some t →
        isInstanceTypeToken t = true)
    ∧ (∀ sv, (validateParameters raw).service = some sv →
        sv = defaultService)
    ∧ (∀ tok r, raw.region = some tok →
        normalize NormKey.region tok = some r →
        (validateParameters raw).region = some r)
    ∧ (∀ tok o, raw.os = some tok →
        normalize NormKey.os tok = some o →
        (validateParameters raw).os = some o) := by
  refine ⟨?_, ?_, ?_, ?_, ?_, ?_⟩
  · intro r hr
    simp only [validateParameters, Option.bind_eq_some] at hr
    obtain ⟨tok, _, hn⟩ := hr
    exact lookupAlias_mem regionAliases tok r hn
  · intro o ho
    simp only [validateParameters, Option.bind_eq_some] at ho
    obtain ⟨tok, _, hn⟩ := ho
    exact lookupAlias_mem osAliases tok o hn
  · intro t ht
    simp only [validateParameters, Option.bind_eq_some] at ht
    obtain ⟨tok, _, hn⟩ := ht
    simp only [normalize] at hn
    split at hn
    · obtain rfl : tok = t := by injection hn
      assumption
    · exact absurd hn (by simp)
  · intro sv hsv
    simp only [validateParameters, Option.some.injEq] at hsv
    rcases hb : raw.service.bind fun t => normalize NormKey.service t with
      _ | x
    · rw [hb] at hsv
      simpa using hsv.symm
    · rw [hb] at hsv
      have hx : x = defaultService := by
        rw [Option.bind_eq_some] at hb
        obtain ⟨tok, _, hn⟩ := hb
        simp only [normalize] at hn
        split at hn
        · exact (Option.some.inj hn).symm
        · exact absurd hn (by simp)
      simp only [Option.getD_some] at hsv
      rw [← hsv]
      exact hx
  · intro tok r h1 h2
    simp [validateParameters, h1, h2]
  · intro tok o h1 h2
    simp [validateParameters, h1, h2]

/-- Witness for C5: the recognized alias Tokyo (with stray whitespace and
case) validates to the canonical region code, which is not the raw alias
text. -/
theorem c5_normalized_vocabulary_witness :
    (validateParameters sampleRaw).region = some "ap-northeast-1"
    ∧ "ap-northeast-1" ≠ " Tokyo " :=
  ⟨(c5_normalized_vocabulary sampleRaw).2.2.2.2.1 " Tokyo "
      "ap-northeast-1" rfl (by decide),
    by decide⟩

/-- C6: the Pricing Resolver is a pure function of the ParameterSet and
the catalog, so invoking it twice with an identical ParameterSet against
an unchanged catalog yields identical PricingData sequences, identical in
both order and content. -/
theorem c6_resolver_idempotent (p1 p2 : ParameterSet)
    (c1 c2 : List CatalogEntry) (n : Nat) (hp : p1 = p2) (hc : c1 = c2) :
    resolve p1 c1 n = resolve p2 c2 n := by
  rw [hp, hc]

/-- Witness for C6 at the sample ParameterSet and catalog. -/
theorem c6_resolver_idempotent_witness :
    resolve sampleParams sampleCatalog 0
      = resolve sampleParams sampleCatalog 0 :=
  c6_resolver_idempotent sampleParams sampleParams sampleCatalog
    sampleCatalog 0 rfl rfl

/-- C7: the catalog filter set derived from a ParameterSet corresponds
exactly to its present fields: each present key contributes its filter,
absent keys impose no filter, and no key other than service is ever
defaulted. -/
theorem c7_filters_match_present_fields (p : ParameterSet) :
    (∀ v, CatalogFilter.mk FilterKey.region v ∈ buildFilters p
        ↔ p.region = some v)
    ∧ (∀ v, CatalogFilter.mk FilterKey.instanceType v ∈ buildFilters p
        ↔ p.instance_type = some v)
    ∧ (∀ v, CatalogFilter.mk FilterKey.os v ∈ buildFilters p
        ↔ p.os = some v)
    ∧ (∀ v, CatalogFilter.mk FilterKey.service v ∈ buildFilters p
        ↔ v = p.service.getD defaultService) := by
  obtain ⟨sv, rg, it, osf⟩ := p
  refine ⟨fun v => ?_, fun v => ?_, fun v => ?_, fun v => ?_⟩ <;>
    cases rg <;> cases it <;> cases osf <;>
      simp [buildFilters, eq_comm]

/-- Witness for C7 at the sample ParameterSet: the region filter present
exactly for the present region field, and no filter for an absent field. -/
theorem c7_filters_match_present_fields_witness :
    CatalogFilter.mk FilterKey.region "ap-northeast-1"
      ∈ buildFilters sampleParams
    ∧ ¬ CatalogFilter.mk FilterKey.region "us-east-1"
        ∈ buildFilters emptyParams :=
  ⟨((c7_filters_match_present_fields sampleParams).1
      "ap-northeast-1").mpr rfl,
    fun hmem =>
      Option.noConfusion
        (((c7_filters_match_present_fields emptyParams).1
          "us-east-1").mp hmem)⟩

end AwsPrice
